import Mathlib

/-!
Shallow embedding of the `throttle` rate limiter core:
the data model (`Config`, `State`, `Decision`), the token-bucket and
leaky-bucket strategies, and the `Limiter` orchestrator
(Grant / Preview / Clear), translated from the Go source.

Conventions of the embedding:
* Go `float64` credit arithmetic is modelled over `ℚ` (all the values the
  claims touch are exactly representable, so the rational model agrees with
  the float one there).
* Go `time.Time` instants and `time.Duration` values are both modelled as
  integer nanosecond counts (`time.Duration` is an `int64` nanosecond count
  in Go; `t2.Sub(t1)` is the difference of the counts).
* A Go `int64(f)` conversion from `float64` truncates toward zero; it is
  modelled by `ratTrunc`.
* The two `time.Now()` calls inside one `Limiter.Grant` (one to seed a fresh
  state, one passed to `Calculate`) are modelled as the same instant `now`.
* Store errors are modelled with `Except`; the pure in-memory backend is a
  function `String → Option State` updated by `Grant`.
-/

namespace Throttle

/-- Nanosecond timestamps and durations (Go `time.Time` / `time.Duration`). -/
abbrev Time := Int

/-- `core.Config`: `Limit` (credits per interval), `Interval` (duration),
`Burst` (ceiling), from `core/types.go`. -/
structure Config where
  limit : Int
  interval : Time
  burst : Int
deriving Repr, DecidableEq

/-- `core.State`: per-key credit record, from `core/types.go`. -/
structure State where
  tokens : ℚ
  lastUpdate : Time
  created : Time
deriving Repr, DecidableEq

/-- `core.Decision`, from `core/types.go`. -/
structure Decision where
  allowed : Bool
  remaining : Int
  resetTime : Time
  retryAfter : Time
deriving Repr, DecidableEq

/-- The Go zero value `Decision{}` returned alongside an error. -/
def Decision.zero : Decision :=
  { allowed := false, remaining := 0, resetTime := 0, retryAfter := 0 }

/-- Go's `int64(f)` / `time.Duration(f)` conversion from `float64`:
truncation toward zero. -/
def ratTrunc (q : ℚ) : Int :=
  if q < 0 then ⌈q⌉ else ⌊q⌋

namespace tokenbucket

/-- The refill term of `tokenbucket.Strategy.Calculate`:
`float64(elapsed) / float64(interval) * float64(limit)` where
`elapsed = now.Sub(state.LastUpdate)`. -/
def tokensToAdd (cfg : Config) (state : State) (now : Time) : ℚ :=
  ((now - state.lastUpdate : Int) : ℚ) / (cfg.interval : ℚ) * (cfg.limit : ℚ)

/-- The clamped bucket content `newTokens` of `tokenbucket.Strategy.Calculate`:
`math.Min(state.Tokens+tokensToAdd, float64(burst))`. -/
def newTokens (cfg : Config) (state : State) (now : Time) : ℚ :=
  min (state.tokens + tokensToAdd cfg state now) (cfg.burst : ℚ)

/-- `tokenbucket.Strategy.Calculate` from the Go source: returns the decision
and the state as left behind (the Go code mutates `state` through a pointer;
here the updated state is the second component). -/
def Calculate (cfg : Config) (state : State) (now : Time) : Decision × State :=
  let nt := newTokens cfg state now
  let resetTime := now + ratTrunc (((cfg.burst : ℚ) - nt) / (cfg.limit : ℚ) * (cfg.interval : ℚ))
  if (1 : ℚ) ≤ nt then
    ({ allowed := true, remaining := ratTrunc (nt - 1), resetTime := resetTime,
       retryAfter := 0 },
     { state with tokens := nt - 1, lastUpdate := now })
  else
    ({ allowed := false, remaining := ratTrunc nt, resetTime := resetTime,
       retryAfter := ratTrunc ((1 - nt) / (cfg.limit : ℚ) * (cfg.interval : ℚ)) },
     { state with lastUpdate := now })

/-- `tokenbucket.Strategy.Preview` from the Go source: same computation,
no assignment to `state` (the returned state is the argument unchanged). -/
def Preview (cfg : Config) (state : State) (now : Time) : Decision × State :=
  let nt := newTokens cfg state now
  let resetTime := now + ratTrunc (((cfg.burst : ℚ) - nt) / (cfg.limit : ℚ) * (cfg.interval : ℚ))
  if (1 : ℚ) ≤ nt then
    ({ allowed := true, remaining := ratTrunc nt, resetTime := resetTime,
       retryAfter := 0 }, state)
  else
    ({ allowed := false, remaining := ratTrunc nt, resetTime := resetTime,
       retryAfter := ratTrunc ((1 - nt) / (cfg.limit : ℚ) * (cfg.interval : ℚ)) }, state)

end tokenbucket

namespace leakybucket

/-- The post-leak level of `leakybucket.Strategy.Calculate`:
`newLevel = state.Tokens - leakRate*float64(elapsed)`, clamped at 0,
where `leakRate = float64(limit) / float64(interval)`. -/
def newLevel (cfg : Config) (state : State) (now : Time) : ℚ :=
  max (state.tokens - (cfg.limit : ℚ) / (cfg.interval : ℚ) * ((now - state.lastUpdate : Int) : ℚ)) 0

/-- `leakybucket.Strategy.Calculate` from the Go source. -/
def Calculate (cfg : Config) (state : State) (now : Time) : Decision × State :=
  let lvl := newLevel cfg state now
  let leakRate : ℚ := (cfg.limit : ℚ) / (cfg.interval : ℚ)
  let resetTime := now + ratTrunc (lvl / leakRate)
  if lvl + 1 ≤ (cfg.burst : ℚ) then
    ({ allowed := true, remaining := ratTrunc ((cfg.burst : ℚ) - (lvl + 1)),
       resetTime := resetTime, retryAfter := 0 },
     { state with tokens := lvl + 1, lastUpdate := now })
  else
    ({ allowed := false, remaining := ratTrunc ((cfg.burst : ℚ) - lvl),
       resetTime := resetTime, retryAfter := ratTrunc (1 / leakRate) },
     { state with lastUpdate := now })

/-- `leakybucket.Strategy.Preview` from the Go source: same computation,
no assignment to `state`. -/
def Preview (cfg : Config) (state : State) (now : Time) : Decision × State :=
  let lvl := newLevel cfg state now
  let leakRate : ℚ := (cfg.limit : ℚ) / (cfg.interval : ℚ)
  let resetTime := now + ratTrunc (lvl / leakRate)
  if lvl + 1 ≤ (cfg.burst : ℚ) then
    ({ allowed := true, remaining := ratTrunc ((cfg.burst : ℚ) - lvl),
       resetTime := resetTime, retryAfter := 0 }, state)
  else
    ({ allowed := false, remaining := ratTrunc ((cfg.burst : ℚ) - lvl),
       resetTime := resetTime, retryAfter := ratTrunc (1 / leakRate) }, state)

end leakybucket

/-- The two configured strategies (`core.Strategy` implementations). -/
inductive Strat
  | tokenbucket
  | leakybucket
deriving Repr, DecidableEq

/-- Dispatch of `Strategy.Calculate`. -/
def Strat.calculate : Strat → Config → State → Time → Decision × State
  | .tokenbucket => tokenbucket.Calculate
  | .leakybucket => leakybucket.Calculate

/-- Dispatch of `Strategy.Preview`. -/
def Strat.preview : Strat → Config → State → Time → Decision × State
  | .tokenbucket => tokenbucket.Preview
  | .leakybucket => leakybucket.Preview

/-- The in-memory backend's key → state mapping (`backend/memory`, which
stores and returns independent copies and never errors). -/
def Store := String → Option State

/-- The empty store: every key is absent (`Get` returns `nil, nil`). -/
def emptyStore : Store := fun _ => none

/-- The state `Limiter.Grant` / `Limiter.Preview` synthesize for a
never-seen key: `Tokens = float64(burst)`, `LastUpdate = Created = now`
(`core/limiter.go`). -/
def initState (cfg : Config) (now : Time) : State :=
  { tokens := (cfg.burst : ℚ), lastUpdate := now, created := now }

namespace Limiter

/-- `Limiter.Grant` over the in-memory backend (`core/limiter.go`):
get (or synthesize) the state, run `Strategy.Calculate`, write the updated
state back, return the decision. -/
def Grant (strat : Strat) (cfg : Config) (store : Store) (key : String) (now : Time) :
    Decision × Store :=
  let state := match store key with
    | none => initState cfg now
    | some s => s
  let r := strat.calculate cfg state now
  (r.1, fun k => if k = key then some r.2 else store k)

/-- `Limiter.Preview` over the in-memory backend (`core/limiter.go`):
get (or synthesize) the state, run `Strategy.Preview`, write nothing back.
The second component is the store as left behind by the call. -/
def Preview (strat : Strat) (cfg : Config) (store : Store) (key : String) (now : Time) :
    Decision × Store :=
  let state := match store key with
    | none => initState cfg now
    | some s => s
  ((strat.preview cfg state now).1, store)

/-- `Limiter.Grant` with the backend's outcomes made explicit
(`core/limiter.go`): `getRes` is the result of the single `backend.Get`
call, `setRes` the result of the single `backend.Set` call on the state it
is given. Returns the decision and the error returned to the caller
(Go returns the pair `(Decision, error)`; `none` is `nil`). -/
def GrantE {E : Type} (strat : Strat) (cfg : Config)
    (getRes : Except E (Option State)) (setRes : State → Except E Unit)
    (now : Time) : Decision × Option E :=
  match getRes with
  | .error e => (Decision.zero, some e)
  | .ok st? =>
    let state := match st? with
      | none => initState cfg now
      | some s => s
    let r := strat.calculate cfg state now
    match setRes r.2 with
    | .error e => (Decision.zero, some e)
    | .ok _ => (r.1, none)

/-- `Limiter.Preview` with the backend's outcome made explicit
(`core/limiter.go`): only `backend.Get` is called. -/
def PreviewE {E : Type} (strat : Strat) (cfg : Config)
    (getRes : Except E (Option State)) (now : Time) : Decision × Option E :=
  match getRes with
  | .error e => (Decision.zero, some e)
  | .ok st? =>
    let state := match st? with
      | none => initState cfg now
      | some s => s
    ((strat.preview cfg state now).1, none)

/-- `Limiter.Clear` with the backend's outcome made explicit
(`core/limiter.go`): the error of the single `backend.Delete` call is
returned verbatim. -/
def ClearE {E : Type} (delRes : Except E Unit) : Option E :=
  match delRes with
  | .error e => some e
  | .ok _ => none

end Limiter

/-- `n` back-to-back `Grant` calls on `key`, all at instant `now`, starting
from `store`; returns the final store and the list of decisions in call
order. -/
def grantSeq (strat : Strat) (cfg : Config) (key : String) (now : Time)
    (store : Store) : Nat → Store × List Decision
  | 0 => (store, [])
  | n + 1 =>
    let p := grantSeq strat cfg key now store n
    let r := Limiter.Grant strat cfg p.1 key now
    (r.2, p.2 ++ [r.1])

/-- A batch of `Preview` calls (arbitrary keys and instants), threading the
store each call leaves behind. -/
def previewMany (strat : Strat) (cfg : Config) (store : Store) :
    List (String × Time) → Store
  | [] => store
  | kt :: rest => previewMany strat cfg (Limiter.Preview strat cfg store kt.1 kt.2).2 rest

/-! ### Helper lemmas -/

/-- Truncation of a nonnegative rational is its floor, hence nonnegative. -/
theorem ratTrunc_nonneg {q : ℚ} (h : 0 ≤ q) : 0 ≤ ratTrunc q := by
  rw [ratTrunc, if_neg (not_lt.2 h)]
  exact Int.floor_nonneg.mpr h

/-- The token-bucket refill term is nonnegative when the clock has not
regressed and the configuration is valid. -/
theorem tokensToAdd_nonneg {cfg : Config} {s : State} {now : Time}
    (hl : 0 ≤ cfg.limit) (hi : 0 < cfg.interval) (hnow : s.lastUpdate ≤ now) :
    0 ≤ tokenbucket.tokensToAdd cfg s now := by
  unfold tokenbucket.tokensToAdd
  have h1 : (0 : ℚ) ≤ ((now - s.lastUpdate : Int) : ℚ) := by
    exact_mod_cast Int.sub_nonneg.mpr hnow
  have h2 : (0 : ℚ) ≤ (cfg.interval : ℚ) := by exact_mod_cast le_of_lt hi
  have h3 : (0 : ℚ) ≤ (cfg.limit : ℚ) := by exact_mod_cast hl
  exact mul_nonneg (div_nonneg h1 h2) h3

/-- The leaky-bucket leak term is nonnegative when the clock has not
regressed and the configuration is valid. -/
theorem leak_nonneg {cfg : Config} {s : State} {now : Time}
    (hl : 0 ≤ cfg.limit) (hi : 0 < cfg.interval) (hnow : s.lastUpdate ≤ now) :
    0 ≤ (cfg.limit : ℚ) / (cfg.interval : ℚ) * ((now - s.lastUpdate : Int) : ℚ) := by
  have h1 : (0 : ℚ) ≤ ((now - s.lastUpdate : Int) : ℚ) := by
    exact_mod_cast Int.sub_nonneg.mpr hnow
  have h2 : (0 : ℚ) ≤ (cfg.interval : ℚ) := by exact_mod_cast le_of_lt hi
  have h3 : (0 : ℚ) ≤ (cfg.limit : ℚ) := by exact_mod_cast hl
  exact mul_nonneg (div_nonneg h3 h2) h1

/-- A batch of Preview calls leaves the store untouched. -/
theorem previewMany_eq_self (strat : Strat) (cfg : Config) (store : Store) :
    ∀ l : List (String × Time), previewMany strat cfg store l = store
  | [] => rfl
  | _ :: rest => previewMany_eq_self strat cfg store rest

/-! ### Claims -/

/-- C3: Preview is side-effect-free. `Limiter.Preview` leaves the store it
ran against unchanged, the strategy `Preview` of either strategy returns the
state it was given unmodified, and inserting any batch of Preview calls
before a Grant leaves that Grant's returned decision and store identical to
calling Grant alone. -/
theorem C3_preview_side_effect_free :
    (∀ (strat : Strat) (cfg : Config) (store : Store) (key : String) (now : Time),
      (Limiter.Preview strat cfg store key now).2 = store)
    ∧ (∀ (strat : Strat) (cfg : Config) (s : State) (now : Time),
      (strat.preview cfg s now).2 = s)
    ∧ (∀ (strat : Strat) (cfg : Config) (store : Store) (previews : List (String × Time))
        (key : String) (now : Time),
      Limiter.Grant strat cfg (previewMany strat cfg store previews) key now
        = Limiter.Grant strat cfg store key now) := by
  refine ⟨fun _ _ _ _ _ => rfl, ?_, ?_⟩
  · intro strat cfg s now
    cases strat with
    | tokenbucket =>
      simp only [Strat.preview, tokenbucket.Preview]
      split <;> rfl
    | leakybucket =>
      simp only [Strat.preview, leakybucket.Preview]
      split <;> rfl
  · intro strat cfg store previews key now
    rw [previewMany_eq_self]

/-- C4: both strategies preserve the credits-bound invariant
`0 ≤ credits ≤ burst` across `Calculate` whenever the incoming state
satisfies it and the supplied `now` is not before the state's `lastUpdate`;
the state synthesized for a never-seen key satisfies it as well. -/
theorem C4_credits_invariant (strat : Strat) (cfg : Config) (s : State) (now : Time)
    (hb : 0 ≤ cfg.burst) (h0 : 0 ≤ s.tokens) (h1 : s.tokens ≤ (cfg.burst : ℚ))
    (hnow : s.lastUpdate ≤ now) :
    (0 ≤ ((strat.calculate cfg s now).2).tokens
      ∧ ((strat.calculate cfg s now).2).tokens ≤ (cfg.burst : ℚ))
    ∧ (0 ≤ (initState cfg now).tokens ∧ (initState cfg now).tokens ≤ (cfg.burst : ℚ)) := by
  have hbq : (0 : ℚ) ≤ (cfg.burst : ℚ) := by exact_mod_cast hb
  constructor
  · cases strat with
    | tokenbucket =>
      have hmin : tokenbucket.newTokens cfg s now ≤ (cfg.burst : ℚ) := min_le_right _ _
      simp only [Strat.calculate, tokenbucket.Calculate]
      split
      · rename_i hge
        exact ⟨by linarith, by linarith⟩
      · exact ⟨h0, h1⟩
    | leakybucket =>
      have hlv0 : (0 : ℚ) ≤ leakybucket.newLevel cfg s now := le_max_right _ _
      simp only [Strat.calculate, leakybucket.Calculate]
      split
      · rename_i hle
        exact ⟨by linarith, by linarith⟩
      · exact ⟨h0, h1⟩
  · exact ⟨hbq, le_refl _⟩

/-- Witness for C4 at a concrete input. -/
theorem C4_credits_invariant_witness :
    (0 : Int) ≤ 15 ∧ (0 : ℚ) ≤ 3 ∧ (3 : ℚ) ≤ ((15 : Int) : ℚ) ∧ (0 : Time) ≤ 7
    ∧ ((0 ≤ ((Strat.tokenbucket.calculate ⟨10, 60000000000, 15⟩ ⟨3, 0, 0⟩ 7).2).tokens
        ∧ ((Strat.tokenbucket.calculate ⟨10, 60000000000, 15⟩ ⟨3, 0, 0⟩ 7).2).tokens
          ≤ (((⟨10, 60000000000, 15⟩ : Config).burst : Int) : ℚ))
      ∧ (0 ≤ (initState ⟨10, 60000000000, 15⟩ 7).tokens
        ∧ (initState ⟨10, 60000000000, 15⟩ 7).tokens
          ≤ (((⟨10, 60000000000, 15⟩ : Config).burst : Int) : ℚ))) := by
  refine ⟨by norm_num, by norm_num, by norm_num, by norm_num, ?_⟩
  exact C4_credits_invariant .tokenbucket ⟨10, 60000000000, 15⟩ ⟨3, 0, 0⟩ 7
    (by norm_num) (by norm_num) (by norm_num) (by norm_num)

/-- C9: with the leaky-bucket strategy, the first Grant on a never-seen key
is always denied: the orchestrator seeds the synthesized state with
`credits = burst`, the leaky bucket reads that as an already-full level, and
the admission test `level + 1 ≤ burst` fails. -/
theorem C9_leaky_first_grant_denied (cfg : Config) (store : Store) (key : String) (now : Time)
    (habsent : store key = none) (hi : 0 < cfg.interval) :
    (Limiter.Grant .leakybucket cfg store key now).1.allowed = false
    ∧ (initState cfg now).tokens = (cfg.burst : ℚ) := by
  refine ⟨?_, rfl⟩
  have hlv : leakybucket.newLevel cfg (initState cfg now) now = max (cfg.burst : ℚ) 0 := by
    simp [leakybucket.newLevel, initState]
  have hcond : ¬ (max (cfg.burst : ℚ) 0 + 1 ≤ (cfg.burst : ℚ)) := by
    have := le_max_left (cfg.burst : ℚ) 0
    intro hc
    linarith
  simp only [Limiter.Grant, habsent, Strat.calculate, leakybucket.Calculate, hlv]
  rw [if_neg hcond]

/-- Witness for C9 at a concrete input. -/
theorem C9_leaky_first_grant_denied_witness :
    emptyStore "k" = none ∧ (0 : Time) < 60000000000
    ∧ ((Limiter.Grant .leakybucket ⟨60, 60000000000, 10⟩ emptyStore "k" 0).1.allowed = false
      ∧ (initState ⟨60, 60000000000, 10⟩ 0).tokens
        = (((⟨60, 60000000000, 10⟩ : Config).burst : Int) : ℚ)) := by
  refine ⟨rfl, by norm_num, ?_⟩
  exact C9_leaky_first_grant_denied ⟨60, 60000000000, 10⟩ emptyStore "k" 0 rfl (by norm_num)

/-- C10: a backend error from Get, Set, or Delete is propagated verbatim to
the Grant / Preview / Clear caller together with the zero-value decision,
and a Grant whose Set fails returns the Set error rather than the computed
decision. -/
theorem C10_store_error_propagation {E : Type} (e : E) (strat : Strat) (cfg : Config)
    (now : Time) :
    (∀ setRes : State → Except E Unit,
      Limiter.GrantE strat cfg (Except.error e) setRes now = (Decision.zero, some e))
    ∧ (∀ os : Option State,
      Limiter.GrantE strat cfg (Except.ok os) (fun _ => Except.error e) now
        = (Decision.zero, some e))
    ∧ Limiter.PreviewE strat cfg (Except.error e) now = (Decision.zero, some e)
    ∧ Limiter.ClearE (Except.error e) = some e :=
  ⟨fun _ => rfl, fun _ => rfl, rfl, rfl⟩

/-- C1 (refuting evaluation): on the token-bucket denied path the partial
refill accounted for in `newTokens` is NOT carried into the stored state:
`state.Tokens` keeps its old value while `lastUpdate` advances, so the
refill accrued since `lastUpdate` is lost. With `limit=10, interval=60s,
burst=15` and a state of 0 credits at time 0, a denied Calculate at
t1 = 3s discards the 0.5 accrued credits: at t2 = 6s the available credits
are 1 (allowed) without the denied call but only 1/2 (denied) after it. -/
theorem C1_partial_refill_lost :
    (tokenbucket.Calculate ⟨10, 60000000000, 15⟩ ⟨0, 0, 0⟩ 3000000000).1.allowed = false
    ∧ (tokenbucket.Calculate ⟨10, 60000000000, 15⟩ ⟨0, 0, 0⟩ 3000000000).2.tokens = 0
    ∧ (tokenbucket.Calculate ⟨10, 60000000000, 15⟩ ⟨0, 0, 0⟩ 3000000000).2.lastUpdate
      = 3000000000
    ∧ tokenbucket.newTokens ⟨10, 60000000000, 15⟩ ⟨0, 0, 0⟩ 6000000000 = 1
    ∧ tokenbucket.newTokens ⟨10, 60000000000, 15⟩
        (tokenbucket.Calculate ⟨10, 60000000000, 15⟩ ⟨0, 0, 0⟩ 3000000000).2 6000000000
      = 1/2
    ∧ (tokenbucket.Calculate ⟨10, 60000000000, 15⟩ ⟨0, 0, 0⟩ 6000000000).1.allowed = true
    ∧ (tokenbucket.Calculate ⟨10, 60000000000, 15⟩
        (tokenbucket.Calculate ⟨10, 60000000000, 15⟩ ⟨0, 0, 0⟩ 3000000000).2
        6000000000).1.allowed = false := by
  norm_num [tokenbucket.Calculate, tokenbucket.newTokens, tokenbucket.tokensToAdd,
    ratTrunc, min_def]

set_option maxRecDepth 8000 in
set_option maxHeartbeats 1000000 in
/-- C2: token bucket with `limit=10, interval=60s, burst=15`: 20
back-to-back Grant calls at one instant on the never-seen key `"k"` allow
exactly the first 15 and deny the last 5, and the 15th (last allowed) call
reports `remaining = 0`. -/
theorem C2_tokenbucket_scenario :
    ((grantSeq .tokenbucket ⟨10, 60000000000, 15⟩ "k" 0 emptyStore 20).2.map Decision.allowed
      = List.replicate 15 true ++ List.replicate 5 false)
    ∧ ((grantSeq .tokenbucket ⟨10, 60000000000, 15⟩ "k" 0 emptyStore 20).2[14]?.map
        Decision.remaining = some 0) := by
  constructor <;>
    norm_num [grantSeq, Limiter.Grant, Strat.calculate, tokenbucket.Calculate,
      tokenbucket.newTokens, tokenbucket.tokensToAdd, initState, emptyStore, ratTrunc,
      min_def, List.replicate]

/-- C5 counterexample: for a corrupted state whose credits lie outside
`[0, burst]` — which the spec says is accepted, not rejected — the
token-bucket Calculate returns a negative `remaining`: with credits `-2`
and zero elapsed time, the denied decision reports `remaining = -2`. -/
theorem C5_negative_remaining_cex :
    (tokenbucket.Calculate ⟨10, 60000000000, 5⟩ ⟨-2, 0, 0⟩ 0).1.remaining = -2
    ∧ ¬ (0 ≤ (tokenbucket.Calculate ⟨10, 60000000000, 5⟩ ⟨-2, 0, 0⟩ 0).1.remaining) := by
  have h : (tokenbucket.Calculate ⟨10, 60000000000, 5⟩ ⟨-2, 0, 0⟩ 0).1.remaining = -2 := by
    norm_num [tokenbucket.Calculate, tokenbucket.newTokens, tokenbucket.tokensToAdd,
      ratTrunc, min_def]
    rw [show ((-2 : ℚ)) = ((-2 : ℤ) : ℚ) by norm_num]
    exact Int.ceil_intCast _
  exact ⟨h, by rw [h]; norm_num⟩

/-- C5 as amended: every decision returned by Calculate or Preview of either
strategy has `remaining ≥ 0`, provided the input state's credits lie in
`[0, burst]`, the supplied time is not before the state's `lastUpdate`, and
the configuration is valid (`limit > 0`, `interval > 0`, `burst ≥ 0`); for
states outside that range `remaining` can be negative. -/
theorem C5_remaining_nonneg (strat : Strat) (cfg : Config) (s : State) (now : Time)
    (hl : 0 < cfg.limit) (hi : 0 < cfg.interval) (hb : 0 ≤ cfg.burst)
    (h0 : 0 ≤ s.tokens) (h1 : s.tokens ≤ (cfg.burst : ℚ)) (hnow : s.lastUpdate ≤ now) :
    0 ≤ (strat.calculate cfg s now).1.remaining
    ∧ 0 ≤ (strat.preview cfg s now).1.remaining := by
  have hbq : (0 : ℚ) ≤ (cfg.burst : ℚ) := by exact_mod_cast hb
  cases strat with
  | tokenbucket =>
    have hadd : 0 ≤ tokenbucket.tokensToAdd cfg s now :=
      tokensToAdd_nonneg (le_of_lt hl) hi hnow
    have hnt0 : 0 ≤ tokenbucket.newTokens cfg s now :=
      le_min (add_nonneg h0 hadd) hbq
    constructor
    · simp only [Strat.calculate, tokenbucket.Calculate]
      split
      · rename_i hge
        exact ratTrunc_nonneg (by linarith)
      · exact ratTrunc_nonneg hnt0
    · simp only [Strat.preview, tokenbucket.Preview]
      split
      · exact ratTrunc_nonneg hnt0
      · exact ratTrunc_nonneg hnt0
  | leakybucket =>
    have hleak : 0 ≤ (cfg.limit : ℚ) / (cfg.interval : ℚ) * ((now - s.lastUpdate : Int) : ℚ) :=
      leak_nonneg (le_of_lt hl) hi hnow
    have hlv0 : (0 : ℚ) ≤ leakybucket.newLevel cfg s now := le_max_right _ _
    have hlvb : leakybucket.newLevel cfg s now ≤ (cfg.burst : ℚ) :=
      max_le (by linarith) hbq
    constructor
    · simp only [Strat.calculate, leakybucket.Calculate]
      split
      · rename_i hle
        exact ratTrunc_nonneg (by linarith)
      · exact ratTrunc_nonneg (by linarith)
    · simp only [Strat.preview, leakybucket.Preview]
      split
      · exact ratTrunc_nonneg (by linarith)
      · exact ratTrunc_nonneg (by linarith)

/-- Witness for the amended C5 at a concrete input. -/
theorem C5_remaining_nonneg_witness :
    (0 : Int) < 60 ∧ (0 : Time) < 60000000000 ∧ (0 : Int) ≤ 10
    ∧ (0 : ℚ) ≤ 10 ∧ (10 : ℚ) ≤ (((⟨60, 60000000000, 10⟩ : Config).burst : Int) : ℚ)
    ∧ (0 : Time) ≤ 0
    ∧ (0 ≤ (Strat.leakybucket.calculate ⟨60, 60000000000, 10⟩ ⟨10, 0, 0⟩ 0).1.remaining
      ∧ 0 ≤ (Strat.leakybucket.preview ⟨60, 60000000000, 10⟩ ⟨10, 0, 0⟩ 0).1.remaining) := by
  refine ⟨by norm_num, by norm_num, by norm_num, by norm_num, by norm_num, by norm_num, ?_⟩
  exact C5_remaining_nonneg .leakybucket ⟨60, 60000000000, 10⟩ ⟨10, 0, 0⟩ 0
    (by norm_num) (by norm_num) (by norm_num) (by norm_num) (by norm_num) (by norm_num)

/-- C6 counterexample: negative elapsed time is NOT clamped to zero in the
token-bucket Calculate. With `limit=10, interval=60s, burst=15`, a state of
5 credits with `lastUpdate = 60s`, and `now = 0`, the refill term is `-10`
and the decision differs from the one computed at `now = lastUpdate`
(denied vs allowed). -/
theorem C6_negative_elapsed_cex :
    tokenbucket.tokensToAdd ⟨10, 60000000000, 15⟩ ⟨5, 60000000000, 0⟩ 0 = -10
    ∧ (tokenbucket.Calculate ⟨10, 60000000000, 15⟩ ⟨5, 60000000000, 0⟩ 0).1.allowed = false
    ∧ (tokenbucket.Calculate ⟨10, 60000000000, 15⟩ ⟨5, 60000000000, 0⟩
        60000000000).1.allowed = true
    ∧ (tokenbucket.Calculate ⟨10, 60000000000, 15⟩ ⟨5, 60000000000, 0⟩ 0).1
      ≠ (tokenbucket.Calculate ⟨10, 60000000000, 15⟩ ⟨5, 60000000000, 0⟩ 60000000000).1 := by
  have h2 : (tokenbucket.Calculate ⟨10, 60000000000, 15⟩ ⟨5, 60000000000, 0⟩ 0).1.allowed
      = false := by
    norm_num [tokenbucket.Calculate, tokenbucket.newTokens, tokenbucket.tokensToAdd,
      ratTrunc, min_def]
  have h3 : (tokenbucket.Calculate ⟨10, 60000000000, 15⟩ ⟨5, 60000000000, 0⟩
      60000000000).1.allowed = true := by
    norm_num [tokenbucket.Calculate, tokenbucket.newTokens, tokenbucket.tokensToAdd,
      ratTrunc, min_def]
  refine ⟨?_, h2, h3, ?_⟩
  · norm_num [tokenbucket.tokensToAdd]
  · intro h
    rw [h, h3] at h2
    exact Bool.noConfusion h2

/-- C6 as amended: the code applies no clamp — whenever `now` is strictly
before `state.lastUpdate` (and the configuration is valid) the refill term
is strictly negative rather than zero, so `Calculate(state, now)` need not
agree with `Calculate(state, state.lastUpdate)`. -/
theorem C6_refill_negative_on_clock_regression (cfg : Config) (s : State) (now : Time)
    (hreg : now < s.lastUpdate) (hl : 0 < cfg.limit) (hi : 0 < cfg.interval) :
    tokenbucket.tokensToAdd cfg s now < 0 := by
  unfold tokenbucket.tokensToAdd
  have h1 : ((now - s.lastUpdate : Int) : ℚ) < 0 := by
    exact_mod_cast sub_neg.mpr hreg
  have h2 : (0 : ℚ) < (cfg.interval : ℚ) := by exact_mod_cast hi
  have h3 : (0 : ℚ) < (cfg.limit : ℚ) := by exact_mod_cast hl
  exact mul_neg_of_neg_of_pos (div_neg_of_neg_of_pos h1 h2) h3

/-- Witness for the amended C6 at a concrete input. -/
theorem C6_refill_negative_on_clock_regression_witness :
    (0 : Time) < 60000000000 ∧ (0 : Int) < 10 ∧ (0 : Time) < 60000000000
    ∧ tokenbucket.tokensToAdd ⟨10, 60000000000, 15⟩ ⟨5, 60000000000, 0⟩ 0 < 0 := by
  refine ⟨by norm_num, by norm_num, by norm_num, ?_⟩
  exact C6_refill_negative_on_clock_regression ⟨10, 60000000000, 15⟩ ⟨5, 60000000000, 0⟩ 0
    (by norm_num) (by norm_num) (by norm_num)

/-- The leaky-bucket §8 scenario's starting store: key `"k"` holds a full
bucket (`credits = burst = 10`) last updated at t = 0. -/
def leakyFullStore : Store := fun k => if k = "k" then some ⟨10, 0, 0⟩ else none

/-- C7: leaky bucket with `limit=60, interval=60s, burst=10` (drain rate one
per second), starting from a full bucket at t = 0: the Grant at t = 0 is
denied, and the Grant at t = 5s is allowed with `remaining = 4`. -/
theorem C7_leakybucket_scenario :
    ((Limiter.Grant .leakybucket ⟨60, 60000000000, 10⟩ leakyFullStore "k" 0).1.allowed
      = false)
    ∧ ((Limiter.Grant .leakybucket ⟨60, 60000000000, 10⟩
        (Limiter.Grant .leakybucket ⟨60, 60000000000, 10⟩ leakyFullStore "k" 0).2
        "k" 5000000000).1.allowed = true)
    ∧ ((Limiter.Grant .leakybucket ⟨60, 60000000000, 10⟩
        (Limiter.Grant .leakybucket ⟨60, 60000000000, 10⟩ leakyFullStore "k" 0).2
        "k" 5000000000).1.remaining = 4) := by
  refine ⟨?_, ?_, ?_⟩ <;>
    norm_num [Limiter.Grant, Strat.calculate, leakybucket.Calculate, leakybucket.newLevel,
      leakyFullStore, initState, ratTrunc, max_def]

end Throttle


